import Mathlib

/-
Verification of the Supply Chain Data Assistant (data_assistant.py).

The development shallow-embeds the string-level core of the program:
the SQL safety gate (validate_sql_query), the markdown fence stripping
applied to provider responses, the schema describer cache
(get_table_schema), the prompt builder (generate_sql_prompt), the
executor (execute_sql), the orchestrator (query), and construction
(the constructor together with the provider-selection helper, named
init_llm here because of its leading underscore in the source).

Modelling conventions:
- Python str.upper is modelled per character by Char.toUpper; the
  program only relies on ASCII case mapping.
- Python str.strip with no argument is modelled by pyStripL, removing
  the ASCII whitespace characters from both ends.
- Python substring search (the in operator) is contSub; str.replace is
  replaceAllL, the leftmost non-overlapping scan that Python performs,
  implemented with a fuel argument equal to the list length so that
  the definition is structural and computable.
- External collaborators (the warehouse connection and the two LLM
  providers) are passed in as function parameters; a Nat component
  counts the remote describe calls that get_table_schema issues.
- Environment lookups are modelled by a function String to Option
  String; Python truthiness of an optional string is the function
  truthy (None and the empty string are falsy).
- A Python dict produced by dict(zip(columns, row)) is modelled as the
  association list columns.zip row.
- Raising ValueError is modelled by Except.error carrying the message.
-/

/-! ## Python string primitives -/

/-- ASCII whitespace recognised by Python str.strip with no argument. -/
def isSpace (c : Char) : Bool :=
  c == ' ' || c == '\t' || c == '\n' || c == '\r' || c == '\x0b' || c == '\x0c'

/-- Prefix test on character lists: isPre p s is true when p is a
prefix of s. -/
def isPre : List Char → List Char → Bool
  | [], _ => true
  | _ :: _, [] => false
  | a :: as, b :: bs => if a = b then isPre as bs else false

/-- Substring test: contSub pat s is true when pat occurs contiguously
in s. This models the Python in operator on strings. -/
def contSub (pat : List Char) : List Char → Bool
  | [] => pat.isEmpty
  | c :: cs => isPre pat (c :: cs) || contSub pat cs

/-- Fueled helper for replaceAllL. The fuel bounds the number of steps;
it is always called with fuel at least the length of the list, making
recursion structural while matching the leftmost non-overlapping scan
of Python str.replace. -/
def replaceAllAux (pat repl : List Char) : Nat → List Char → List Char
  | 0, s => s
  | _ + 1, [] => []
  | fuel + 1, c :: cs =>
    if pat ≠ [] ∧ isPre pat (c :: cs) = true then
      repl ++ replaceAllAux pat repl fuel ((c :: cs).drop pat.length)
    else
      c :: replaceAllAux pat repl fuel cs

/-- Python str.replace on character lists (the program only replaces
non-empty patterns; an empty pattern is treated as no occurrence). -/
def replaceAllL (pat repl s : List Char) : List Char :=
  replaceAllAux pat repl s.length s

/-- Python str.strip on character lists: remove leading and trailing
whitespace. -/
def pyStripL (s : List Char) : List Char :=
  ((s.dropWhile isSpace).reverse.dropWhile isSpace).reverse

/-- Python str.upper, per character (ASCII case mapping). -/
def pyUpper (s : String) : String := String.mk (s.data.map Char.toUpper)

/-- Python str.strip with no argument. -/
def pyStrip (s : String) : String := String.mk (pyStripL s.data)

/-- Python s.replace(pat, repl). -/
def pyReplace (s pat repl : String) : String :=
  String.mk (replaceAllL pat.data repl.data s.data)

/-- Python pat in s, as a Bool on strings. -/
def strContains (s pat : String) : Bool := contSub pat.data s.data

/-- Python s.startswith(pat). -/
def strStartsWith (s pat : String) : Bool := isPre pat.data s.data

/-- Python truthiness of an optional string: None and the empty string
are falsy, every other string is truthy. -/
def truthy : Option String → Bool
  | none => false
  | some s => s != ""

/-- Backtick character, written by code point to keep it out of the
surrounding text. -/
def btick : Char := Char.ofNat 96

/-- Character list of the bare markdown fence: three backticks. -/
def ticks3 : List Char := [btick, btick, btick]

/-- Length of the leading run of backticks of a character list; used to
reason about fence removal. -/
def leadTicks : List Char → Nat
  | [] => 0
  | c :: cs => if btick = c then leadTicks cs + 1 else 0

/-! ## The embedded program -/

/-- Denylist of lines 234 to 238 of data_assistant.py, in source
order. -/
def dangerous_operations : List String :=
  ["DROP ", "DELETE ", "TRUNCATE ", "INSERT ", "UPDATE ",
   "CREATE ", "ALTER ", "GRANT ", "REVOKE ", "EXEC ",
   "EXECUTE ", "--", "/*", "*/", "xp_", "sp_"]

/-- Message raised by validate_sql_query when a denylisted operation is
found (lines 242 to 245). -/
def dangerousMsg (operation : String) : String :=
  "SQL query contains potentially dangerous operation: \x27" ++ pyStrip operation
    ++ "\x27. Only SELECT queries are allowed for safety."

/-- Message raised by validate_sql_query when the query does not start
with SELECT (lines 249 to 251). -/
def select_error : String :=
  "Only SELECT queries are allowed. Query must start with SELECT."

/-- DataAssistant.validate_sql_query (lines 217 to 253). The source
iterates over dangerous_operations raising at the first operation
contained in the uppercased query, which is List.find? in list order;
then it requires the stripped uppercased text to start with SELECT. -/
def validate_sql_query (sql_query : String) : Except String Bool :=
  let sql_upper := pyUpper sql_query
  match dangerous_operations.find? (fun operation => strContains sql_upper operation) with
  | some operation => Except.error (dangerousMsg operation)
  | none =>
    if strStartsWith (pyStrip sql_upper) ("SELECT") = false then
      Except.error select_error
    else
      Except.ok true

/-- DataAssistant.execute_sql (lines 255 to 278). The warehouse is the
parameter run_query, which given the SQL text yields the cursor
description column names and the fetched rows, or fails. The returned
dictionaries dict(zip(columns, row)) are modelled as association
lists. -/
def execute_sql {α : Type} (run_query : String → Except String (List String × List (List α)))
    (sql_query : String) : Except String (List (List (String × α))) :=
  match validate_sql_query sql_query with
  | Except.error e => Except.error e
  | Except.ok _ =>
    match run_query sql_query with
    | Except.error e => Except.error e
    | Except.ok (columns, results) =>
      Except.ok (results.map (fun row => columns.zip row))

/-- Result envelope assembled by DataAssistant.query: a dict whose
optional fields results, status and error are present exactly when the
source inserts the corresponding keys. -/
structure Envelope (α : Type) where
  natural_language_query : String
  sql_query : String
  results : Option (List (List (String × α)))
  status : Option String
  error : Option String
deriving Repr

/-- DataAssistant.query (lines 280 to 307). The parameter generate
stands for natural_language_to_sql, the prompt build plus provider
call, whose failures propagate (they are outside the try block);
run_query is the warehouse as in execute_sql. -/
def query {α : Type} (generate : String → Except String String)
    (run_query : String → Except String (List String × List (List α)))
    (natural_language_query : String) (execute : Bool) : Except String (Envelope α) :=
  match generate natural_language_query with
  | Except.error e => Except.error e
  | Except.ok sql_query =>
    if execute then
      match execute_sql run_query sql_query with
      | Except.ok results =>
        Except.ok { natural_language_query := natural_language_query, sql_query := sql_query,
                    results := some results, status := some ("success"), error := none }
      | Except.error e =>
        Except.ok { natural_language_query := natural_language_query, sql_query := sql_query,
                    results := none, status := some ("error"), error := some e }
    else
      Except.ok { natural_language_query := natural_language_query, sql_query := sql_query,
                  results := none, status := none, error := none }

/-- Schema rendering of lines 95 to 101: one line per column, of the
form two spaces, a dash, a space, the name, a colon and space, and the
type, joined with newlines. -/
def renderSchema (columns : List (String × String)) : String :=
  String.intercalate ("\n") (columns.map (fun col => "  - " ++ col.1 ++ ": " ++ col.2))

/-- DataAssistant.get_table_schema (lines 78 to 102) in state-passing
form. The parameter rows is the warehouse response to the DESCRIBE
call (name and type pairs); cache is the _table_schema attribute. The
result is the returned text, the attribute after the call, and the
number of remote describe calls issued (0 or 1). The source guards the
cache with Python truthiness: if self._table_schema. -/
def get_table_schema (rows : List (String × String)) (cache : Option String) :
    String × Option String × Nat :=
  if truthy cache then (cache.getD (""), cache, 0)
  else
    let schema := renderSchema rows
    (schema, some schema, 1)

/-- Unity Catalog configuration triple read by the constructor. -/
structure Config where
  catalog_name : String
  schema_name : String
  table_name : String

/-- Fully qualified table name f-string of lines 88 and 115. -/
def full_table_name (cfg : Config) : String :=
  cfg.catalog_name ++ "." ++ cfg.schema_name ++ "." ++ cfg.table_name

/-- Literal template text of lines 117 to 134, split at the three
interpolation points (the table name appears twice). -/
def promptP1 : String :=
  "You are a SQL expert. Convert the following natural language query into a SQL query for a Databricks Unity Catalog table.\n\nTable: "

/-- Template text between the table name and the schema. -/
def promptP2 : String := "\n\nTable Schema:\n"

/-- Template text between the schema and the question. -/
def promptP3 : String := "\n\nNatural Language Query: "

/-- Template text between the question and the second table name. -/
def promptP4 : String :=
  "\n\nImportant Guidelines:\n1. Generate ONLY the SQL query without any explanation or markdown formatting\n2. Use the exact table name: "

/-- Template text after the second table name. -/
def promptP5 : String :=
  "\n3. Use proper SQL syntax compatible with Databricks SQL\n4. Include appropriate WHERE, GROUP BY, ORDER BY, and LIMIT clauses as needed\n5. Make sure column names match exactly as shown in the schema\n6. Return only the SQL query, nothing else\n\nSQL Query:"

/-- The pure template interpolation of lines 117 to 136: the prompt as
a function of the fully qualified table name, the schema text and the
question. -/
def build_prompt (full_table_name table_schema natural_language_query : String) : String :=
  promptP1 ++ full_table_name ++ promptP2 ++ table_schema ++ promptP3
    ++ natural_language_query ++ promptP4 ++ full_table_name ++ promptP5

/-- DataAssistant.generate_sql_prompt (lines 104 to 136) in
state-passing form: fetch or reuse the schema text via
get_table_schema, then interpolate the template. The Nat component
counts remote calls exactly as in get_table_schema; the template step
itself adds none. -/
def generate_sql_prompt (cfg : Config) (rows : List (String × String))
    (cache : Option String) (natural_language_query : String) :
    String × Option String × Nat :=
  let r := get_table_schema rows cache
  (build_prompt (full_table_name cfg) r.1 natural_language_query, r.2.1, r.2.2)

/-- Markdown fence stripping applied to provider responses at lines
164 and 192: remove every occurrence of three backticks followed by
sql, then every occurrence of three backticks, then strip surrounding
whitespace. -/
def strip_fences (s : String) : String :=
  pyStrip (pyReplace (pyReplace s ("```sql") ("")) ("```") (""))

/-- Provider client produced by initialisation: the selected provider
with its credential and model name. -/
inductive LLMClient where
  | openai (api_key model : String)
  | gemini (api_key model : String)
deriving Repr

/-- DataAssistant initialisation of the provider (lines 47 to 65; the
source method name carries a leading underscore). The env parameter is
os.getenv. No network call occurs in this method in the source: it
only reads configuration, checks the credential for truthiness, and
stores the client locally, raising before any use of the provider. -/
def init_llm (env : String → Option String) (llm_provider : String) : Except String LLMClient :=
  if llm_provider = "openai" then
    let openai_api_key := env ("OPENAI_API_KEY")
    let openai_model := (env ("OPENAI_MODEL")).getD ("gpt-4")
    if truthy openai_api_key = false then
      Except.error ("OPENAI_API_KEY not found in environment variables")
    else
      Except.ok (LLMClient.openai (openai_api_key.getD ("")) openai_model)
  else if llm_provider = "gemini" then
    let gemini_api_key := env ("GEMINI_API_KEY")
    let gemini_model := (env ("GEMINI_MODEL")).getD ("gemini-pro")
    if truthy gemini_api_key = false then
      Except.error ("GEMINI_API_KEY not found in environment variables")
    else
      Except.ok (LLMClient.gemini (gemini_api_key.getD ("")) gemini_model)
  else
    Except.error ("Unsupported LLM provider: " ++ llm_provider)

/-- Assistant instance fields set by the constructor (lines 18 to 45). -/
structure Assistant where
  llm_provider : String
  client : LLMClient
  server_hostname : Option String
  http_path : Option String
  access_token : Option String
  catalog_name : Option String
  schema_name : Option String
  table_name : Option String
  table_schema_cache : Option String

/-- DataAssistant.__init__ (lines 18 to 45). The provider selector is
the Python expression llm_provider or os.getenv(LLM_PROVIDER, openai):
a truthy argument wins, otherwise the environment value if the
variable is set, otherwise the literal openai. The schema cache field
(_table_schema in the source) starts as None. -/
def DataAssistant_init (env : String → Option String) (llm_provider : Option String) :
    Except String Assistant :=
  let provider :=
    if truthy llm_provider then llm_provider.getD ("")
    else (env ("LLM_PROVIDER")).getD ("openai")
  match init_llm env provider with
  | Except.error e => Except.error e
  | Except.ok client =>
    Except.ok
      { llm_provider := provider
        client := client
        server_hostname := env ("DATABRICKS_SERVER_HOSTNAME")
        http_path := env ("DATABRICKS_HTTP_PATH")
        access_token := env ("DATABRICKS_ACCESS_TOKEN")
        catalog_name := env ("CATALOG_NAME")
        schema_name := env ("SCHEMA_NAME")
        table_name := env ("TABLE_NAME")
        table_schema_cache := none }

/-! ## Helper lemmas: substring search -/

/-- Characterisation of the prefix test. -/
lemma isPre_iff (p : List Char) : ∀ s, isPre p s = true ↔ ∃ t, s = p ++ t := by
  induction p with
  | nil =>
    intro s
    simp [isPre]
  | cons a as ih =>
    intro s
    cases s with
    | nil => simp [isPre]
    | cons b bs =>
      rcases eq_or_ne a b with h | h
      · subst h
        simp [isPre, ih bs]
      · constructor
        · intro hf
          simp [isPre, if_neg h] at hf
        · rintro ⟨t, ht⟩
          rw [List.cons_append] at ht
          injection ht with h1 h2
          exact absurd h1.symm h

/-- Characterisation of the substring test. -/
lemma contSub_iff (pat : List Char) : ∀ s, contSub pat s = true ↔ ∃ a b, s = a ++ pat ++ b := by
  intro s
  induction s with
  | nil =>
    cases pat with
    | nil =>
      simp [contSub]
    | cons p ps =>
      simp only [contSub, List.isEmpty_cons]
      constructor
      · intro h
        cases h
      · rintro ⟨a, b, hab⟩
        rcases a with _ | ⟨x, xs⟩ <;> simp_all
  | cons c cs ih =>
    simp only [contSub, Bool.or_eq_true, ih, isPre_iff]
    constructor
    · rintro (⟨t, ht⟩ | ⟨a, b, hab⟩)
      · exact ⟨[], t, by simpa using ht⟩
      · exact ⟨c :: a, b, by simp [hab]⟩
    · rintro ⟨a, b, hab⟩
      cases a with
      | nil =>
        exact Or.inl ⟨b, by simpa using hab⟩
      | cons x xs =>
        right
        rw [List.cons_append, List.cons_append] at hab
        injection hab with h1 h2
        exact ⟨xs, b, by simpa [List.append_assoc] using h2⟩

/-- Substring introduction from an explicit split. -/
lemma contSub_intro (pat a b s : List Char) (hs : s = a ++ pat ++ b) : contSub pat s = true :=
  (contSub_iff pat s).mpr ⟨a, b, hs⟩

/-! ## Helper lemmas: find? -/

/-- List.find? misses when the predicate fails everywhere. -/
lemma find?_of_forall_false (p : String → Bool) :
    ∀ l : List String, (∀ x ∈ l, p x = false) → l.find? p = none := by
  intro l
  induction l with
  | nil => intro _; rfl
  | cons a as ih =>
    intro h
    have ha := h a (List.mem_cons_self a as)
    have ih2 := ih fun x hx => h x (List.mem_cons_of_mem a hx)
    simp [List.find?, ha, ih2]

/-- List.find? returns the first hit in list order. -/
lemma find?_first (p : String → Bool) :
    ∀ (l₁ : List String) (op : String) (l₂ : List String),
      (∀ o ∈ l₁, p o = false) → p op = true → (l₁ ++ op :: l₂).find? p = some op := by
  intro l₁
  induction l₁ with
  | nil =>
    intro op l₂ _ hop
    simp [List.find?, hop]
  | cons a as ih =>
    intro op l₂ h hop
    have ha := h a (List.mem_cons_self a as)
    have ih2 := ih op l₂ (fun o ho => h o (List.mem_cons_of_mem a ho)) hop
    simp [List.find?, ha, ih2]

/-- List.find? hits when some member satisfies the predicate. -/
lemma find?_isSome_of_mem (p : String → Bool) :
    ∀ (l : List String) (x : String), x ∈ l → p x = true → ∃ r, l.find? p = some r := by
  intro l
  induction l with
  | nil =>
    intro x hx
    cases hx
  | cons a as ih =>
    intro x hx hp
    cases hpa : p a with
    | true => exact ⟨a, by simp [List.find?, hpa]⟩
    | false =>
      rcases List.mem_cons.mp hx with rfl | hmem
      · exact absurd hp (by simp [hpa])
      · obtain ⟨r, hr⟩ := ih x hmem hp
        exact ⟨r, by simp [List.find?, hpa, hr]⟩

/-! ## Helper lemmas: replace -/

/-- The fueled replace fixes the empty list. -/
lemma replaceAllAux_nil (pat repl : List Char) :
    ∀ fuel, replaceAllAux pat repl fuel [] = [] := by
  intro fuel
  cases fuel <;> rfl

/-- The fueled replace does not depend on the fuel once the fuel covers
the length of the list. -/
lemma replaceAllAux_fuel (pat repl : List Char) :
    ∀ (f g : Nat) (s : List Char), s.length ≤ f → s.length ≤ g →
      replaceAllAux pat repl f s = replaceAllAux pat repl g s := by
  intro f
  induction f with
  | zero =>
    intro g s hf _
    have hs : s = [] := List.eq_nil_of_length_eq_zero (Nat.le_zero.mp hf)
    subst hs
    rw [replaceAllAux_nil, replaceAllAux_nil]
  | succ f ih =>
    intro g s hf hg
    cases s with
    | nil => rw [replaceAllAux_nil, replaceAllAux_nil]
    | cons c cs =>
      cases g with
      | zero => simp at hg
      | succ g =>
        simp only [replaceAllAux]
        by_cases hm : pat ≠ [] ∧ isPre pat (c :: cs) = true
        · rw [if_pos hm, if_pos hm]
          have hp : 1 ≤ pat.length := by
            cases pat with
            | nil => exact absurd rfl hm.1
            | cons _ _ => simp
          have hlen : ((c :: cs).drop pat.length).length ≤ f := by
            simp only [List.length_drop, List.length_cons]
            simp only [List.length_cons] at hf
            omega
          have hlen2 : ((c :: cs).drop pat.length).length ≤ g := by
            simp only [List.length_drop, List.length_cons]
            simp only [List.length_cons] at hg
            omega
          rw [ih g _ hlen hlen2]
        · rw [if_neg hm, if_neg hm]
          have hlen : cs.length ≤ f := by
            simp only [List.length_cons] at hf
            omega
          have hlen2 : cs.length ≤ g := by
            simp only [List.length_cons] at hg
            omega
          rw [ih g _ hlen hlen2]

/-- Unfolding equation of replaceAllL at a match. -/
lemma replaceAllL_pos (pat repl s : List Char) (hp : pat ≠ []) (hm : isPre pat s = true) :
    replaceAllL pat repl s = repl ++ replaceAllL pat repl (s.drop pat.length) := by
  cases s with
  | nil =>
    cases pat with
    | nil => exact absurd rfl hp
    | cons a as => simp [isPre] at hm
  | cons c cs =>
    show replaceAllAux pat repl (cs.length + 1) (c :: cs) = _
    simp only [replaceAllAux, if_pos (And.intro hp hm)]
    have hp1 : 1 ≤ pat.length := by
      cases pat with
      | nil => exact absurd rfl hp
      | cons _ _ => simp
    have h1 : ((c :: cs).drop pat.length).length ≤ cs.length := by
      simp only [List.length_drop, List.length_cons]
      omega
    rw [replaceAllAux_fuel pat repl cs.length ((c :: cs).drop pat.length).length _ h1 le_rfl]
    rfl

/-- Unfolding equation of replaceAllL at a mismatch. -/
lemma replaceAllL_cons_neg (pat repl : List Char) (c : Char) (cs : List Char)
    (hm : ¬ (pat ≠ [] ∧ isPre pat (c :: cs) = true)) :
    replaceAllL pat repl (c :: cs) = c :: replaceAllL pat repl cs := by
  show replaceAllAux pat repl (cs.length + 1) (c :: cs) = _
  simp only [replaceAllAux, if_neg hm]
  rfl

/-- Replace fixes any list in which the pattern does not occur. -/
lemma replaceAllL_no_occur (pat repl : List Char) :
    ∀ s, contSub pat s = false → replaceAllL pat repl s = s := by
  intro s
  induction s with
  | nil => intro _; rfl
  | cons c cs ih =>
    intro h
    simp only [contSub, Bool.or_eq_false_iff] at h
    obtain ⟨h1, h2⟩ := h
    rw [replaceAllL_cons_neg]
    · rw [ih h2]
    · rintro ⟨-, hpre⟩
      rw [h1] at hpre
      cases hpre

/-! ## Helper lemmas: backtick runs -/

/-- A two-backtick prefix is the same as a leading run of length at
least two. -/
lemma isPre_two_iff (xs : List Char) : isPre [btick, btick] xs = true ↔ 2 ≤ leadTicks xs := by
  cases xs with
  | nil => simp [isPre, leadTicks]
  | cons a as =>
    cases as with
    | nil =>
      simp only [isPre, leadTicks]
      split_ifs <;> simp
    | cons a2 as2 =>
      simp only [isPre, leadTicks]
      split_ifs <;> simp

/-- The three-backtick fence list is nonempty. -/
lemma ticks3_ne_nil : ticks3 ≠ [] := by simp [ticks3]

/-- Leading run grows by one per leading backtick. -/
lemma leadTicks_cons_tick (cs : List Char) : leadTicks (btick :: cs) = leadTicks cs + 1 := by
  simp [leadTicks]

/-- Leading run of a list extended by the fence. -/
lemma leadTicks_ticks3_append (t : List Char) : leadTicks (ticks3 ++ t) = leadTicks t + 3 := by
  show leadTicks (btick :: btick :: btick :: t) = leadTicks t + 3
  rw [leadTicks_cons_tick, leadTicks_cons_tick, leadTicks_cons_tick]

/-- Removing fences never lengthens the leading backtick run. -/
lemma leadTicks_replace_le :
    ∀ (n : Nat) (s : List Char), s.length ≤ n →
      leadTicks (replaceAllL ticks3 [] s) ≤ leadTicks s := by
  intro n
  induction n with
  | zero =>
    intro s hs
    have h0 : s = [] := List.eq_nil_of_length_eq_zero (Nat.le_zero.mp hs)
    subst h0
    exact le_rfl
  | succ n ih =>
    intro s hs
    cases s with
    | nil => exact le_rfl
    | cons c cs =>
      by_cases hm : isPre ticks3 (c :: cs) = true
      · obtain ⟨t, ht⟩ := (isPre_iff ticks3 (c :: cs)).mp hm
        have hlen : t.length ≤ n := by
          have hlc := congrArg List.length ht
          simp [ticks3] at hlc
          simp only [List.length_cons] at hs
          omega
        rw [replaceAllL_pos ticks3 [] (c :: cs) ticks3_ne_nil hm, ht, List.drop_left]
        simp only [List.nil_append]
        calc leadTicks (replaceAllL ticks3 [] t) ≤ leadTicks t := ih t hlen
          _ ≤ leadTicks (ticks3 ++ t) := by rw [leadTicks_ticks3_append]; omega
      · rw [replaceAllL_cons_neg ticks3 [] c cs (by rintro ⟨-, h⟩; exact hm h)]
        have hcs : cs.length ≤ n := by
          simp only [List.length_cons] at hs
          omega
        by_cases hc : btick = c
        · simp only [leadTicks, if_pos hc]
          exact Nat.succ_le_succ (ih cs hcs)
        · simp [leadTicks, hc]

/-- After removing every bare fence no fence remains: the output of
replaceAllL with the three-backtick pattern contains no three
consecutive backticks. -/
lemma replace_no_ticks :
    ∀ (n : Nat) (s : List Char), s.length ≤ n →
      contSub ticks3 (replaceAllL ticks3 [] s) = false := by
  intro n
  induction n with
  | zero =>
    intro s hs
    have h0 : s = [] := List.eq_nil_of_length_eq_zero (Nat.le_zero.mp hs)
    subst h0
    decide
  | succ n ih =>
    intro s hs
    cases s with
    | nil => decide
    | cons c cs =>
      have hcs : cs.length ≤ n := by
        simp only [List.length_cons] at hs
        omega
      by_cases hm : isPre ticks3 (c :: cs) = true
      · obtain ⟨t, ht⟩ := (isPre_iff ticks3 (c :: cs)).mp hm
        have hlen : t.length ≤ n := by
          have hlc := congrArg List.length ht
          simp [ticks3] at hlc
          simp only [List.length_cons] at hs
          omega
        rw [replaceAllL_pos ticks3 [] (c :: cs) ticks3_ne_nil hm, ht, List.drop_left]
        simp only [List.nil_append]
        exact ih t hlen
      · rw [replaceAllL_cons_neg ticks3 [] c cs (by rintro ⟨-, h⟩; exact hm h)]
        have hrest : contSub ticks3 (replaceAllL ticks3 [] cs) = false := ih cs hcs
        simp only [contSub, Bool.or_eq_false_iff]
        refine ⟨?_, hrest⟩
        by_cases hc : btick = c
        · subst hc
          have h2 : isPre [btick, btick] cs = false := by
            cases h : isPre [btick, btick] cs
            · rfl
            · exfalso
              apply hm
              show isPre ticks3 (btick :: cs) = true
              simp [ticks3, isPre, h]
          have hlead : leadTicks cs ≤ 1 := by
            by_contra hlt
            have h2' : 2 ≤ leadTicks cs := by omega
            have := (isPre_two_iff cs).mpr h2'
            rw [h2] at this
            cases this
          have hlead2 : leadTicks (replaceAllL ticks3 [] cs) ≤ 1 :=
            le_trans (leadTicks_replace_le n cs hcs) hlead
          cases h : isPre ticks3 (btick :: replaceAllL ticks3 [] cs)
          · rfl
          · exfalso
            have hp2 : isPre [btick, btick] (replaceAllL ticks3 [] cs) = true := by
              simpa [ticks3, isPre] using h
            have := (isPre_two_iff _).mp hp2
            omega
        · simp [ticks3, isPre, hc]

/-- A fence-with-language occurrence would contain a bare fence. -/
lemma contSub_fence_of (s : List Char) (h : contSub ticks3 s = false) :
    contSub (("```sql" : String).data) s = false := by
  cases hc : contSub (("```sql" : String).data) s
  · rfl
  · exfalso
    obtain ⟨a, b, hab⟩ := (contSub_iff _ _).mp hc
    have hfe : ("```sql" : String).data
        = ticks3 ++ [Char.ofNat 115, Char.ofNat 113, Char.ofNat 108] := by decide
    rw [hfe] at hab
    have hct : contSub ticks3 s = true :=
      contSub_intro ticks3 a ([Char.ofNat 115, Char.ofNat 113, Char.ofNat 108] ++ b) s
        (by rw [hab]; simp [List.append_assoc])
    rw [hct] at h
    cases h

/-! ## Helper lemmas: strip -/

/-- dropWhile never lengthens a list. -/
lemma length_dropWhile_le (p : Char → Bool) (l : List Char) :
    (l.dropWhile p).length ≤ l.length := by
  induction l with
  | nil => exact le_rfl
  | cons a l ih =>
    cases h : p a with
    | true =>
      simp only [List.dropWhile_cons, h, if_true]
      exact le_trans ih (by simp)
    | false => simp [List.dropWhile_cons, h]

/-- dropWhile is idempotent. -/
lemma dropWhile_idem (p : Char → Bool) (l : List Char) :
    (l.dropWhile p).dropWhile p = l.dropWhile p := by
  induction l with
  | nil => rfl
  | cons a l ih =>
    cases h : p a with
    | true => simp [List.dropWhile_cons, h, ih]
    | false => simp [List.dropWhile_cons, h]

/-- dropWhile removes a prefix: the original list is that prefix
followed by the result. -/
lemma exists_dropWhile_eq (p : Char → Bool) (l : List Char) :
    ∃ a, l = a ++ l.dropWhile p := by
  induction l with
  | nil => exact ⟨[], rfl⟩
  | cons c l ih =>
    cases h : p c with
    | true =>
      obtain ⟨a, ha⟩ := ih
      exact ⟨c :: a, by simpa [List.dropWhile_cons, h] using ha⟩
    | false => exact ⟨[], by simp [List.dropWhile_cons, h]⟩

/-- Stripping yields a contiguous middle part of the input. -/
lemma pyStripL_sub (s : List Char) : ∃ a b, s = a ++ pyStripL s ++ b := by
  obtain ⟨a, ha⟩ := exists_dropWhile_eq isSpace s
  obtain ⟨a2, ha2⟩ := exists_dropWhile_eq isSpace (s.dropWhile isSpace).reverse
  refine ⟨a, a2.reverse, ?_⟩
  have hu : s.dropWhile isSpace = pyStripL s ++ a2.reverse := by
    have hr := congrArg List.reverse ha2
    simpa [pyStripL, List.reverse_append] using hr
  conv_lhs => rw [ha, hu]
  simp [List.append_assoc]

/-- Stripping is idempotent. -/
lemma pyStripL_idem (s : List Char) : pyStripL (pyStripL s) = pyStripL s := by
  have hvdrop : (pyStripL s).dropWhile isSpace = pyStripL s := by
    have hu : (s.dropWhile isSpace).dropWhile isSpace = s.dropWhile isSpace :=
      dropWhile_idem isSpace s
    obtain ⟨a2, ha2⟩ := exists_dropWhile_eq isSpace (s.dropWhile isSpace).reverse
    have hu2 : s.dropWhile isSpace = pyStripL s ++ a2.reverse := by
      have hr := congrArg List.reverse ha2
      simpa [pyStripL, List.reverse_append] using hr
    cases hv : pyStripL s with
    | nil => rfl
    | cons c v2 =>
      have hc : isSpace c = false := by
        cases hcc : isSpace c
        · rfl
        · exfalso
          rw [hv] at hu2
          rw [hu2, List.cons_append] at hu
          simp [List.dropWhile_cons, hcc] at hu
          have hlen1 := length_dropWhile_le isSpace (v2 ++ a2.reverse)
          have hlen2 := congrArg List.length hu
          simp only [List.length_cons] at hlen2
          omega
      simp [List.dropWhile_cons, hc]
  show (((pyStripL s).dropWhile isSpace).reverse.dropWhile isSpace).reverse = pyStripL s
  rw [hvdrop]
  have hrev : (pyStripL s).reverse = (s.dropWhile isSpace).reverse.dropWhile isSpace := by
    simp [pyStripL]
  rw [hrev, dropWhile_idem]
  rfl

/-! ## Helper lemmas: strings -/

/-- Unfolds the data of a constructed string. -/
lemma data_mk (l : List Char) : (String.mk l).data = l := rfl

/-- Unfolds the data of an appended string. -/
lemma data_append (s t : String) : (s ++ t).data = s.data ++ t.data := rfl

/-- The bare fence as a character list. -/
lemma data_ticks : ("```" : String).data = ticks3 := by decide

/-- Normal form of strip_fences over the list operations. -/
lemma strip_fences_eq (x : String) :
    strip_fences x
      = String.mk (pyStripL (replaceAllL ticks3 []
          (replaceAllL (("```sql" : String).data) [] x.data))) := by
  show String.mk (pyStripL (replaceAllL (("```" : String).data) []
      (replaceAllL (("```sql" : String).data) [] x.data))) = _
  rw [data_ticks]

/-- C7 (confirmed): the markdown fence stripping applied to provider
responses, namely remove every occurrence of the sql fence, then every
bare fence, then trim surrounding whitespace, is idempotent, and the
sample fenced response strips to the bare SELECT statement. -/
theorem strip_fences_idem :
    (∀ s : String, strip_fences (strip_fences s) = strip_fences s) ∧
    strip_fences ("```sql\nSELECT 1\n```") = "SELECT 1" := by
  constructor
  · intro s
    rw [strip_fences_eq s, strip_fences_eq]
    rw [data_mk]
    have hnt : contSub ticks3 (pyStripL (replaceAllL ticks3 []
        (replaceAllL (("```sql" : String).data) [] s.data))) = false := by
      cases hc : contSub ticks3 (pyStripL (replaceAllL ticks3 []
          (replaceAllL (("```sql" : String).data) [] s.data)))
      · rfl
      · exfalso
        obtain ⟨a, b, hab⟩ :=
          pyStripL_sub (replaceAllL ticks3 [] (replaceAllL (("```sql" : String).data) [] s.data))
        obtain ⟨c, d, hcd⟩ := (contSub_iff _ _).mp hc
        have hin : contSub ticks3 (replaceAllL ticks3 []
            (replaceAllL (("```sql" : String).data) [] s.data)) = true := by
          apply contSub_intro ticks3 (a ++ c) (d ++ b)
          rw [hab, hcd]
          simp [List.append_assoc]
        rw [replace_no_ticks (replaceAllL (("```sql" : String).data) [] s.data).length _ le_rfl]
          at hin
        cases hin
    have hfence := contSub_fence_of _ hnt
    rw [replaceAllL_no_occur _ [] _ hfence]
    rw [replaceAllL_no_occur _ [] _ hnt]
    rw [pyStripL_idem]
  · decide

/-! ## Helper lemmas: the gate -/

/-- Unfolding equation of the gate. -/
lemma validate_unfold (s : String) :
    validate_sql_query s =
      match dangerous_operations.find? (fun operation => strContains (pyUpper s) operation) with
      | some operation => Except.error (dangerousMsg operation)
      | none =>
        if strStartsWith (pyStrip (pyUpper s)) ("SELECT") = false then
          Except.error select_error
        else
          Except.ok true := rfl

/-- Unfolding equation of the executor. -/
lemma execute_unfold {α : Type} (run_query : String → Except String (List String × List (List α)))
    (s : String) :
    execute_sql run_query s =
      match validate_sql_query s with
      | Except.error e => Except.error e
      | Except.ok _ =>
        match run_query s with
        | Except.error e => Except.error e
        | Except.ok (columns, results) =>
          Except.ok (results.map (fun row => columns.zip row)) := rfl

/-! ## Claim theorems -/

/-- C1 (amended): whenever the uppercased query contains a denylisted
substring, or the stripped uppercased query does not start with SELECT,
the gate raises; and when the denylist hits, the message names the
first matched token in denylist order, before the SELECT check is
applied. The amendment: matching is against the uppercased text, so it
is case-insensitive only for the fourteen uppercase tokens; the two
lowercase tokens can never match. -/
theorem validate_rejects (s : String)
    (h : (∃ op ∈ dangerous_operations, strContains (pyUpper s) op = true) ∨
         strStartsWith (pyStrip (pyUpper s)) ("SELECT") = false) :
    (∃ e, validate_sql_query s = Except.error e) ∧
    (∀ (l₁ : List String) (op : String) (l₂ : List String),
       dangerous_operations = l₁ ++ op :: l₂ →
       (∀ o ∈ l₁, strContains (pyUpper s) o = false) →
       strContains (pyUpper s) op = true →
       validate_sql_query s = Except.error (dangerousMsg op)) := by
  constructor
  · rcases hfind : dangerous_operations.find? (fun operation => strContains (pyUpper s) operation)
      with _ | op
    · rcases h with ⟨op, hmem, hc⟩ | hsw
      · obtain ⟨r, hr⟩ := find?_isSome_of_mem _ dangerous_operations op hmem hc
        rw [hfind] at hr
        cases hr
      · refine ⟨select_error, ?_⟩
        rw [validate_unfold, hfind]
        simp [hsw]
    · exact ⟨dangerousMsg op, by rw [validate_unfold, hfind]⟩
  · intro l₁ op l₂ heq hall hop
    have hfind : dangerous_operations.find? (fun operation => strContains (pyUpper s) operation)
        = some op := by
      rw [heq]
      exact find?_first _ l₁ op l₂ hall hop
    rw [validate_unfold, hfind]

/-- C1 witness: a query containing the first denylisted token is
rejected with the message naming that token. -/
theorem validate_rejects_witness :
    validate_sql_query ("DROP TABLE students") = Except.error (dangerousMsg ("DROP ")) := by
  have h := (validate_rejects ("DROP TABLE students")
    (Or.inl ⟨"DROP ", by decide, by decide⟩)).2
  exact h [] ("DROP ")
    ["DELETE ", "TRUNCATE ", "INSERT ", "UPDATE ", "CREATE ", "ALTER ",
     "GRANT ", "REVOKE ", "EXEC ", "EXECUTE ", "--", "/*", "*/", "xp_", "sp_"]
    rfl (by intro o ho; cases ho) (by decide)

/-- C1 counterexample: the denylist is not matched case-insensitively.
The token xp_ occurs verbatim, hence case-insensitively, in the query,
yet the gate accepts, because the lowercase token is searched inside
the uppercased text where it can never occur. -/
theorem validate_counterexample :
    ("xp_" ∈ dangerous_operations) ∧
    strContains ("select xp_cmdshell from t") ("xp_") = true ∧
    strContains (pyUpper ("select xp_cmdshell from t")) (pyUpper ("xp_")) = true ∧
    validate_sql_query ("select xp_cmdshell from t") = Except.ok true := by
  refine ⟨by decide, by decide, by decide, ?_⟩
  rfl

/-- C2 (confirmed): a query whose stripped uppercased text starts with
SELECT and whose uppercased text contains no denylisted substring
passes the gate, and the executor then runs exactly the original
string: the gate rewrites nothing, so validating the validated string
is the same proposition on the same unchanged string. -/
theorem validate_accepts (s : String)
    (h1 : strStartsWith (pyStrip (pyUpper s)) ("SELECT") = true)
    (h2 : ∀ op ∈ dangerous_operations, strContains (pyUpper s) op = false) :
    validate_sql_query s = Except.ok true ∧
    ∀ (α : Type) (run_query : String → Except String (List String × List (List α))),
      execute_sql run_query s
        = Except.map (fun cr => cr.2.map (fun row => cr.1.zip row)) (run_query s) := by
  have hfind : dangerous_operations.find? (fun operation => strContains (pyUpper s) operation)
      = none := find?_of_forall_false _ dangerous_operations h2
  have hval : validate_sql_query s = Except.ok true := by
    rw [validate_unfold, hfind]
    simp [h1]
  refine ⟨hval, ?_⟩
  intro α run_query
  cases hrq : run_query s with
  | error e => rw [execute_unfold, hval, hrq]; rfl
  | ok cr =>
    obtain ⟨columns, results⟩ := cr
    rw [execute_unfold, hval, hrq]
    rfl

/-- C2 witness: a plain SELECT passes the gate and reaches the
warehouse verbatim. -/
theorem validate_accepts_witness :
    validate_sql_query ("SELECT * FROM catalog.schema.table LIMIT 10") = Except.ok true ∧
    ∀ (α : Type) (run_query : String → Except String (List String × List (List α))),
      execute_sql run_query ("SELECT * FROM catalog.schema.table LIMIT 10")
        = Except.map (fun cr => cr.2.map (fun row => cr.1.zip row))
            (run_query ("SELECT * FROM catalog.schema.table LIMIT 10")) :=
  validate_accepts ("SELECT * FROM catalog.schema.table LIMIT 10") (by decide) (by decide)

/-- Unfolding equation of the orchestrator. -/
lemma query_unfold {α : Type} (generate : String → Except String String)
    (run_query : String → Except String (List String × List (List α)))
    (natural_language_query : String) (execute : Bool) :
    query generate run_query natural_language_query execute =
      match generate natural_language_query with
      | Except.error e => Except.error e
      | Except.ok sql_query =>
        if execute then
          match execute_sql run_query sql_query with
          | Except.ok results =>
            Except.ok { natural_language_query := natural_language_query, sql_query := sql_query,
                        results := some results, status := some ("success"), error := none }
          | Except.error e =>
            Except.ok { natural_language_query := natural_language_query, sql_query := sql_query,
                        results := none, status := some ("error"), error := some e }
        else
          Except.ok { natural_language_query := natural_language_query, sql_query := sql_query,
                      results := none, status := none, error := none } := rfl

/-- C3 (confirmed): when generation succeeds and the validation or
execution step fails with message e, the orchestrator catches the
failure and returns an envelope with the error marker, the message,
and the originally generated SQL; the error field is non-empty
whenever the message is. -/
theorem query_converts_failure {α : Type}
    (generate : String → Except String String)
    (run_query : String → Except String (List String × List (List α)))
    (q sql e : String)
    (hg : generate q = Except.ok sql)
    (he : execute_sql run_query sql = Except.error e)
    (hne : e ≠ "") :
    query generate run_query q true =
      Except.ok { natural_language_query := q, sql_query := sql,
                  results := none, status := some ("error"), error := some e } ∧
    some e ≠ some ("" : String) := by
  refine ⟨?_, by simpa using hne⟩
  rw [query_unfold, hg]
  simp [he]

/-- C3 witness: a connectivity failure after successful generation is
converted into an error envelope that keeps the generated SQL. -/
theorem query_converts_failure_witness :
    query (fun _ => Except.ok ("SELECT 1"))
      (fun _ => (Except.error ("connection failed")
        : Except String (List String × List (List String))))
      ("count rows") true =
      Except.ok { natural_language_query := "count rows", sql_query := "SELECT 1",
                  results := none, status := some ("error"),
                  error := some ("connection failed") } ∧
    some ("connection failed") ≠ some ("" : String) :=
  query_converts_failure _ _ ("count rows") ("SELECT 1") ("connection failed")
    rfl rfl (by decide)

/-- C9 (confirmed): every envelope returned by the orchestrator holds
the original question and the generated SQL; without execution it has
no status, results or error; with execution it has exactly one of the
two outcomes, success with results and no error, or error with a
message and no results. -/
theorem query_envelope_shape {α : Type}
    (generate : String → Except String String)
    (run_query : String → Except String (List String × List (List α)))
    (q : String) (ex : Bool) (env : Envelope α)
    (h : query generate run_query q ex = Except.ok env) :
    env.natural_language_query = q ∧
    generate q = Except.ok env.sql_query ∧
    (ex = false → env.status = none ∧ env.results = none ∧ env.error = none) ∧
    (ex = true →
      (env.status = some ("success") ∧ env.error = none ∧ ∃ r, env.results = some r) ∨
      (env.status = some ("error") ∧ env.results = none ∧ ∃ e, env.error = some e)) := by
  cases hg : generate q with
  | error e =>
    simp [query_unfold, hg] at h
  | ok sql =>
    cases ex with
    | false =>
      have hv : query generate run_query q false
          = Except.ok (Envelope.mk q sql none none none) := by
        simp [query_unfold, hg]
      rw [hv] at h
      injection h with h2
      subst h2
      exact ⟨rfl, rfl, fun _ => ⟨rfl, rfl, rfl⟩, fun hx => absurd hx (by decide)⟩
    | true =>
      cases hex : execute_sql run_query sql with
      | ok results =>
        have hv : query generate run_query q true
            = Except.ok (Envelope.mk q sql (some results) (some ("success")) none) := by
          simp [query_unfold, hg, hex]
        rw [hv] at h
        injection h with h2
        subst h2
        exact ⟨rfl, rfl, fun hx => absurd hx (by decide),
          fun _ => Or.inl ⟨rfl, rfl, results, rfl⟩⟩
      | error e =>
        have hv : query generate run_query q true
            = Except.ok (Envelope.mk q sql none (some ("error")) (some e)) := by
          simp [query_unfold, hg, hex]
        rw [hv] at h
        injection h with h2
        subst h2
        exact ⟨rfl, rfl, fun hx => absurd hx (by decide),
          fun _ => Or.inr ⟨rfl, rfl, e, rfl⟩⟩

/-- C9 witness: the success envelope of a concrete executed query has
the question and the success marker. -/
theorem query_envelope_shape_witness :
    (Envelope.mk ("count rows") ("SELECT 1") (some [[(("c", "v") : String × String)]])
        (some ("success")) none).natural_language_query = "count rows" ∧
    (Envelope.mk ("count rows") ("SELECT 1") (some [[(("c", "v") : String × String)]])
        (some ("success")) none).status = some ("success") := by
  have h := query_envelope_shape (fun _ => Except.ok ("SELECT 1"))
      (fun _ => (Except.ok (["c"], [["v"]]) : Except String (List String × List (List String))))
      ("count rows") true
      (Envelope.mk ("count rows") ("SELECT 1") (some [[(("c", "v") : String × String)]])
        (some ("success")) none) rfl
  refine ⟨h.1, ?_⟩
  rcases h.2.2.2 rfl with ⟨hs, -, -⟩ | ⟨hs, -, -⟩
  · exact hs
  · exact absurd hs (by decide)

/-- C4 counterexample: on an empty describe result the first call
renders the empty schema text, and because the cache guard uses Python
truthiness the second call on the updated cache issues another remote
describe call, so two calls issue two remote calls, not one. -/
theorem schema_cache_counterexample :
    (get_table_schema ([] : List (String × String)) none).1 = "" ∧
    (get_table_schema ([] : List (String × String)) none).2.2
      + (get_table_schema ([] : List (String × String))
          ((get_table_schema ([] : List (String × String)) none).2.1)).2.2 = 2 := by
  constructor <;> rfl

/-- C4 (amended): for every describe result whose rendered schema text
is non-empty, the first call fetches once and stores the text, and any
later call with that cache returns the cached text with zero remote
calls, whatever the warehouse would now answer. -/
theorem schema_cache_memoizes (rows rows2 : List (String × String))
    (h : renderSchema rows ≠ "") :
    get_table_schema rows none = (renderSchema rows, some (renderSchema rows), 1) ∧
    get_table_schema rows2 (some (renderSchema rows))
      = (renderSchema rows, some (renderSchema rows), 0) := by
  constructor
  · rfl
  · have ht : truthy (some (renderSchema rows)) = true := bne_iff_ne.mpr h
    rw [get_table_schema, if_pos ht]
    rfl

/-- C4 witness: a one-column schema is fetched once and then served
from the cache. -/
theorem schema_cache_memoizes_witness :
    renderSchema [(("col1", "string") : String × String)] ≠ "" ∧
    (get_table_schema [(("col1", "string") : String × String)] none
        = (renderSchema [(("col1", "string") : String × String)],
           some (renderSchema [(("col1", "string") : String × String)]), 1) ∧
     get_table_schema ([] : List (String × String))
        (some (renderSchema [(("col1", "string") : String × String)]))
        = (renderSchema [(("col1", "string") : String × String)],
           some (renderSchema [(("col1", "string") : String × String)]), 0)) :=
  ⟨by decide, schema_cache_memoizes _ _ (by decide)⟩

/-- C5 (confirmed): with a cached schema text the prompt step is the
pure template build_prompt applied to the question, the fully
qualified table identifier and the schema text: it changes no state,
issues zero remote calls of its own, and always returns a prompt. -/
theorem prompt_build_pure (cfg : Config) (rows : List (String × String)) (ts q : String)
    (h : ts ≠ "") :
    generate_sql_prompt cfg rows (some ts) q
      = (build_prompt (full_table_name cfg) ts q, some ts, 0) := by
  have ht : truthy (some ts) = true := bne_iff_ne.mpr h
  have hs : get_table_schema rows (some ts) = (ts, some ts, 0) := by
    rw [get_table_schema, if_pos ht]
    rfl
  show (build_prompt (full_table_name cfg) (get_table_schema rows (some ts)).1 q,
        (get_table_schema rows (some ts)).2.1, (get_table_schema rows (some ts)).2.2) = _
  rw [hs]

/-- C5 witness: a concrete cached prompt build is the pure template
with no state change and no remote call. -/
theorem prompt_build_pure_witness :
    generate_sql_prompt (Config.mk ("test_catalog") ("test_schema") ("test_table"))
        ([] : List (String × String)) (some ("  - col1: string")) ("count rows")
      = (build_prompt (full_table_name
            (Config.mk ("test_catalog") ("test_schema") ("test_table")))
          ("  - col1: string") ("count rows"), some ("  - col1: string"), 0) :=
  prompt_build_pure _ _ _ _ (by decide)

/-- C6 (confirmed): for a non-empty question the produced prompt
contains the fully qualified table name verbatim, the schema text
verbatim, and the question itself. -/
theorem prompt_contains (cfg : Config) (rows : List (String × String)) (cache : Option String)
    (q : String) (_h : q ≠ "") :
    strContains (generate_sql_prompt cfg rows cache q).1 (full_table_name cfg) = true ∧
    strContains (generate_sql_prompt cfg rows cache q).1 (get_table_schema rows cache).1 = true ∧
    strContains (generate_sql_prompt cfg rows cache q).1 q = true := by
  refine ⟨?_, ?_, ?_⟩
  · exact contSub_intro _ (promptP1.data)
      ((promptP2 ++ (get_table_schema rows cache).1 ++ promptP3 ++ q ++ promptP4
        ++ full_table_name cfg ++ promptP5).data) _
      (by simp [generate_sql_prompt, build_prompt, data_append, List.append_assoc])
  · exact contSub_intro _ ((promptP1 ++ full_table_name cfg ++ promptP2).data)
      ((promptP3 ++ q ++ promptP4 ++ full_table_name cfg ++ promptP5).data) _
      (by simp [generate_sql_prompt, build_prompt, data_append, List.append_assoc])
  · exact contSub_intro _
      ((promptP1 ++ full_table_name cfg ++ promptP2 ++ (get_table_schema rows cache).1
        ++ promptP3).data)
      ((promptP4 ++ full_table_name cfg ++ promptP5).data) _
      (by simp [generate_sql_prompt, build_prompt, data_append, List.append_assoc])

/-- C6 witness: the containments hold for a concrete question, table
and schema. -/
theorem prompt_contains_witness :
    strContains (generate_sql_prompt (Config.mk ("test_catalog") ("test_schema") ("test_table"))
        ([] : List (String × String)) (some ("  - col1: string")) ("Show me all records")).1
      (full_table_name (Config.mk ("test_catalog") ("test_schema") ("test_table"))) = true ∧
    strContains (generate_sql_prompt (Config.mk ("test_catalog") ("test_schema") ("test_table"))
        ([] : List (String × String)) (some ("  - col1: string")) ("Show me all records")).1
      (get_table_schema ([] : List (String × String)) (some ("  - col1: string"))).1 = true ∧
    strContains (generate_sql_prompt (Config.mk ("test_catalog") ("test_schema") ("test_table"))
        ([] : List (String × String)) (some ("  - col1: string")) ("Show me all records")).1
      ("Show me all records") = true :=
  prompt_contains _ _ _ _ (by decide)

/-- Unfolding equation of the constructor. -/
lemma init_assistant_unfold (env : String → Option String) (llm_provider : Option String) :
    DataAssistant_init env llm_provider =
      match init_llm env (if truthy llm_provider then llm_provider.getD ("")
          else (env ("LLM_PROVIDER")).getD ("openai")) with
      | Except.error e => Except.error e
      | Except.ok client =>
        Except.ok
          { llm_provider := (if truthy llm_provider then llm_provider.getD ("")
              else (env ("LLM_PROVIDER")).getD ("openai"))
            client := client
            server_hostname := env ("DATABRICKS_SERVER_HOSTNAME")
            http_path := env ("DATABRICKS_HTTP_PATH")
            access_token := env ("DATABRICKS_ACCESS_TOKEN")
            catalog_name := env ("CATALOG_NAME")
            schema_name := env ("SCHEMA_NAME")
            table_name := env ("TABLE_NAME")
            table_schema_cache := none } := rfl

/-- C8 (confirmed): provider initialisation fails with the credential
message when the selected provider key is absent from the environment,
for both providers, and fails naming the invalid selector for any
other value; the source raises in each case before touching any
client, and the modelled initialisation performs no remote call at
all. -/
theorem init_llm_config_errors (env : String → Option String) :
    (env ("OPENAI_API_KEY") = none →
      init_llm env ("openai")
        = Except.error ("OPENAI_API_KEY not found in environment variables")) ∧
    (env ("GEMINI_API_KEY") = none →
      init_llm env ("gemini")
        = Except.error ("GEMINI_API_KEY not found in environment variables")) ∧
    (∀ p : String, p ≠ "openai" → p ≠ "gemini" →
      init_llm env p = Except.error ("Unsupported LLM provider: " ++ p) ∧
      strContains ("Unsupported LLM provider: " ++ p) p = true) := by
  refine ⟨?_, ?_, ?_⟩
  · intro h
    simp [init_llm, h, truthy]
  · intro h
    simp [init_llm, h, truthy]
  · intro p h1 h2
    constructor
    · simp [init_llm, h1, h2]
    · exact contSub_intro _ (("Unsupported LLM provider: " : String).data) [] _
        (by simp [data_append])

/-- C8 witness: with an empty environment both providers fail on the
missing credential, and an unknown selector fails naming itself. -/
theorem init_llm_config_errors_witness :
    init_llm (fun _ => none) ("openai")
      = Except.error ("OPENAI_API_KEY not found in environment variables") ∧
    init_llm (fun _ => none) ("gemini")
      = Except.error ("GEMINI_API_KEY not found in environment variables") ∧
    init_llm (fun _ => none) ("llama")
      = Except.error ("Unsupported LLM provider: " ++ "llama") :=
  ⟨(init_llm_config_errors (fun _ => none)).1 rfl,
   (init_llm_config_errors (fun _ => none)).2.1 rfl,
   ((init_llm_config_errors (fun _ => none)).2.2 ("llama") (by decide) (by decide)).1⟩

/-- C10 (confirmed): with no provider argument and no LLM_PROVIDER
environment value, the selector silently defaults to openai, and
construction then succeeds or fails exactly according to the OpenAI
credential. -/
theorem default_provider (env : String → Option String) (h : env ("LLM_PROVIDER") = none) :
    (∀ a : Assistant, DataAssistant_init env none = Except.ok a → a.llm_provider = "openai") ∧
    (truthy (env ("OPENAI_API_KEY")) = true →
      ∃ a, DataAssistant_init env none = Except.ok a ∧ a.llm_provider = "openai") ∧
    (truthy (env ("OPENAI_API_KEY")) = false →
      DataAssistant_init env none
        = Except.error ("OPENAI_API_KEY not found in environment variables")) := by
  have hprov : (if truthy (none : Option String) then (none : Option String).getD ("")
      else (env ("LLM_PROVIDER")).getD ("openai")) = "openai" := by
    simp [truthy, h]
  refine ⟨?_, ?_, ?_⟩
  · intro a ha
    rw [init_assistant_unfold, hprov] at ha
    cases hk : truthy (env ("OPENAI_API_KEY")) with
    | false =>
      rw [(by simp [init_llm, hk] :
        init_llm env ("openai")
          = Except.error ("OPENAI_API_KEY not found in environment variables"))] at ha
      cases ha
    | true =>
      rw [(by simp [init_llm, hk] :
        init_llm env ("openai")
          = Except.ok (LLMClient.openai ((env ("OPENAI_API_KEY")).getD (""))
              ((env ("OPENAI_MODEL")).getD ("gpt-4"))))] at ha
      injection ha with h2
      subst h2
      rfl
  · intro hk
    rw [init_assistant_unfold, hprov,
      (by simp [init_llm, hk] :
        init_llm env ("openai")
          = Except.ok (LLMClient.openai ((env ("OPENAI_API_KEY")).getD (""))
              ((env ("OPENAI_MODEL")).getD ("gpt-4"))))]
    exact ⟨_, rfl, rfl⟩
  · intro hk
    rw [init_assistant_unfold, hprov,
      (by simp [init_llm, hk] :
        init_llm env ("openai")
          = Except.error ("OPENAI_API_KEY not found in environment variables"))]

/-- C10 witness: an environment holding only the OpenAI key yields an
assistant whose provider selector is openai. -/
theorem default_provider_witness :
    ∃ a, DataAssistant_init
        (fun k => if k = "OPENAI_API_KEY" then some ("test-key") else none) none
      = Except.ok a ∧ a.llm_provider = "openai" :=
  (default_provider (fun k => if k = "OPENAI_API_KEY" then some ("test-key") else none)
    (by decide)).2.1 (by decide)
